import Mathlib

/-!
Verification of the Razorpay webhook backend (src/backend/app.py).

The development shallowly embeds the Python source:

* `verify_webhook_signature` together with a full executable model of
  HMAC-SHA256 (`sha256`, `hmacSha256`), since the claims quantify over the
  relationship between payloads, secrets and hexadecimal digests.  Byte
  strings are `List Nat` (each entry a byte value); 32-bit machine words are
  `Nat` reduced with explicit `% 2 ^ 32`.  Python `str` secrets are encoded
  with `utf8Encode`, mirroring `secret.encode('utf-8')`.  The model was
  validated against the FIPS / RFC test vectors for SHA-256 and HMAC-SHA256.
* `generate_receipt_id`, with the two nondeterministic inputs of the source
  (`time.time()` and the six `random.choices` draws) passed explicitly.
* `razorpay_webhook`, the Flask endpoint, as a function of the request
  (signature header, raw body, the outcome of Flask's `request.get_json()`),
  the configured secret, and the Firestore state.  Firestore is modelled as
  association lists (`Store`); the handler result records the HTTP status,
  JSON response body, the updated store, and the document reads and writes
  performed.  Exceptions raised inside the handler body (JSON decode
  failures, attribute errors from `.get` on non-dict values, a non-string
  document id) are routed to the source's generic `except` clause, which
  returns HTTP 500; every such path occurs before any store access, so the
  read/write logs of that branch are empty.  `hmac.compare_digest` is
  modelled by string equality (its documented result for equal-typed ASCII
  inputs); the `createdAt: firestore.SERVER_TIMESTAMP` field is a
  store-resolved sentinel carrying no request data and is not modelled.
-/

/-- JSON values as produced by Python's `json` module: `null` is Python
`None`, objects are dicts modelled as association lists. -/
inductive Json where
  | null
  | bool (b : Bool)
  | num (n : Int)
  | str (s : String)
  | arr (l : List Json)
  | obj (l : List (String × Json))

/-- Python truthiness of a JSON-decoded value (`if not x`). -/
def jsonTruthy : Json → Bool
  | .null => false
  | .bool b => b
  | .num n => n != 0
  | .str s => s != ""
  | .arr l => !l.isEmpty
  | .obj l => !l.isEmpty

/-- Truthiness of a `dict.get` result; Python `None` (absent key) is falsy. -/
def optTruthy : Option Json → Bool
  | none => false
  | some j => jsonTruthy j

/-- A `dict.get(key)` result stored back into a JSON document: Python `None`
becomes JSON `null`. -/
def optToJson (o : Option Json) : Json := o.getD Json.null

/-- Python `==` between a `dict.get` result and a string literal: true only
when the value is that very string (`None == s` and non-string values
compare unequal). -/
def pyEqStr : Option Json → String → Bool
  | some (.str s), t => s == t
  | _, _ => false

/-! ## SHA-256 over byte lists (32-bit words as `Nat` with explicit `% 2^32`) -/

/-- `2 ^ 32`, the word modulus. -/
def M32 : Nat := 4294967296

/-- Rotate a 32-bit word right by `k`. -/
def rotr32 (k w : Nat) : Nat := ((w >>> k) ||| (w <<< (32 - k))) % M32

/-- 32-bit bitwise complement. -/
def not32 (w : Nat) : Nat := w ^^^ 0xFFFFFFFF

/-- SHA-256 Σ0. -/
def bigSigma0 (x : Nat) : Nat := rotr32 2 x ^^^ rotr32 13 x ^^^ rotr32 22 x

/-- SHA-256 Σ1. -/
def bigSigma1 (x : Nat) : Nat := rotr32 6 x ^^^ rotr32 11 x ^^^ rotr32 25 x

/-- SHA-256 σ0. -/
def smallSigma0 (x : Nat) : Nat := rotr32 7 x ^^^ rotr32 18 x ^^^ (x >>> 3)

/-- SHA-256 σ1. -/
def smallSigma1 (x : Nat) : Nat := rotr32 17 x ^^^ rotr32 19 x ^^^ (x >>> 10)

/-- The 64 SHA-256 round constants (FIPS 180-4, written in decimal). -/
def sha256K : List Nat :=
  [1116352408, 1899447441, 3049323471, 3921009573, 961987163,
   1508970993, 2453635748, 2870763221, 3624381080, 310598401,
   607225278, 1426881987, 1925078388, 2162078206, 2614888103,
   3248222580, 3835390401, 4022224774, 264347078, 604807628,
   770255983, 1249150122, 1555081692, 1996064986, 2554220882,
   2821834349, 2952996808, 3210313671, 3336571891, 3584528711,
   113926993, 338241895, 666307205, 773529912, 1294757372,
   1396182291, 1695183700, 1986661051, 2177026350, 2456956037,
   2730485921, 2820302411, 3259730800, 3345764771, 3516065817,
   3600352804, 4094571909, 275423344, 430227734, 506948616,
   659060556, 883997877, 958139571, 1322822218, 1537002063,
   1747873779, 1955562222, 2024104815, 2227730452, 2361852424,
   2428436474, 2756734187, 3204031479, 3329325298]

/-- The eight 32-bit working variables of SHA-256. -/
structure Sha256State where
  a : Nat
  b : Nat
  c : Nat
  d : Nat
  e : Nat
  f : Nat
  g : Nat
  h : Nat

/-- SHA-256 initial hash value (FIPS 180-4, written in decimal). -/
def sha256Init : Sha256State :=
  ⟨1779033703, 3144134277, 1013904242, 2773480762, 1359893119, 2600822924, 528734635, 1541459225⟩

/-- One SHA-256 compression round; `kw` is `K[i] + W[i]` reduced mod `2^32`. -/
def sha256Round (s : Sha256State) (kw : Nat) : Sha256State :=
  let t1 := (s.h + bigSigma1 s.e + ((s.e &&& s.f) ^^^ (not32 s.e &&& s.g)) + kw) % M32
  let t2 := (bigSigma0 s.a + ((s.a &&& s.b) ^^^ (s.a &&& s.c) ^^^ (s.b &&& s.c))) % M32
  ⟨(t1 + t2) % M32, s.a, s.b, s.c, (s.d + t1) % M32, s.e, s.f, s.g⟩

/-- Big-endian grouping of bytes into 32-bit words. -/
def bytesToWordsBE : List Nat → List Nat
  | b0 :: b1 :: b2 :: b3 :: rest => (((b0 * 256 + b1) * 256 + b2) * 256 + b3) :: bytesToWordsBE rest
  | _ => []

/-- The 64-entry SHA-256 message schedule of one 64-byte block. -/
def sha256Schedule (block : List Nat) : Array Nat :=
  (List.range 48).foldl
    (fun w _ =>
      let n := w.size
      w.push ((smallSigma1 (w.getD (n - 2) 0) + w.getD (n - 7) 0 +
               smallSigma0 (w.getD (n - 15) 0) + w.getD (n - 16) 0) % M32))
    (bytesToWordsBE block).toArray

/-- SHA-256 compression of one 64-byte block into the running state. -/
def sha256Compress (s : Sha256State) (block : List Nat) : Sha256State :=
  let w := sha256Schedule block
  let t := (List.range 64).foldl
    (fun st i => sha256Round st ((sha256K.getD i 0 + w.getD i 0) % M32)) s
  ⟨(s.a + t.a) % M32, (s.b + t.b) % M32, (s.c + t.c) % M32, (s.d + t.d) % M32,
   (s.e + t.e) % M32, (s.f + t.f) % M32, (s.g + t.g) % M32, (s.h + t.h) % M32⟩

/-- The `k` big-endian bytes of `n` (most significant first). -/
def beBytes (k n : Nat) : List Nat := (List.range k).map (fun i => n / 256 ^ (k - 1 - i) % 256)

/-- SHA-256 padding: `0x80`, zeros to 56 mod 64, then the bit length on 8 bytes. -/
def sha256Pad (msg : List Nat) : List Nat :=
  let L := msg.length
  msg ++ 128 :: List.replicate ((120 - (L + 1) % 64) % 64) 0 ++ beBytes 8 (L * 8)

/-- Split a byte list into successive 64-byte blocks. -/
def chunk64 (l : List Nat) : List (List Nat) :=
  if h : l = [] then [] else l.take 64 :: chunk64 (l.drop 64)
termination_by l.length
decreasing_by
  have hl : 0 < l.length := List.length_pos.mpr h
  simp only [List.length_drop]
  omega

/-- Big-endian byte rendering of the final SHA-256 state. -/
def sha256StateBytes (s : Sha256State) : List Nat :=
  beBytes 4 s.a ++ beBytes 4 s.b ++ beBytes 4 s.c ++ beBytes 4 s.d ++
  beBytes 4 s.e ++ beBytes 4 s.f ++ beBytes 4 s.g ++ beBytes 4 s.h

/-- SHA-256 digest (32 bytes) of a byte string. -/
def sha256 (msg : List Nat) : List Nat :=
  sha256StateBytes ((chunk64 (sha256Pad msg)).foldl sha256Compress sha256Init)

/-- HMAC-SHA256 digest (32 bytes): keys longer than the 64-byte block are
first hashed, the key is zero-padded to 64 bytes, and the inner/outer pads
use `0x36` / `0x5c`. -/
def hmacSha256 (key msg : List Nat) : List Nat :=
  let k0 := if 64 < key.length then sha256 key else key
  let kb := k0 ++ List.replicate (64 - k0.length) 0
  sha256 ((kb.map (fun b => b ^^^ 0x5c)) ++ sha256 ((kb.map (fun b => b ^^^ 0x36)) ++ msg))

/-- Lowercase hexadecimal digit characters. -/
def hexLowerDigits : List Char := "0123456789abcdef".data

/-- Two lowercase hex characters of one byte. -/
def byteToHexL (b : Nat) : List Char := [hexLowerDigits.getD (b / 16) '0', hexLowerDigits.getD (b % 16) '0']

/-- Lowercase hexadecimal string of a byte list (Python `hexdigest()`). -/
def bytesToHex (bs : List Nat) : String := String.mk (bs.foldr (fun b acc => byteToHexL b ++ acc) [])

/-- UTF-8 encoding of one scalar value (Python `str.encode('utf-8')`). -/
def utf8Char (c : Char) : List Nat :=
  let n := c.toNat
  if n < 128 then [n]
  else if n < 2048 then [192 + n / 64, 128 + n % 64]
  else if n < 65536 then [224 + n / 4096, 128 + n / 64 % 64, 128 + n % 64]
  else [240 + n / 262144, 128 + n / 4096 % 64, 128 + n / 64 % 64, 128 + n % 64]

/-- UTF-8 encoding of a string. -/
def utf8Encode (s : String) : List Nat := s.data.foldr (fun c acc => utf8Char c ++ acc) []

/-- `hmac.new(secret.encode('utf-8'), payload, hashlib.sha256).hexdigest()`. -/
def hmacHexdigest (secret : String) (payload : List Nat) : String :=
  bytesToHex (hmacSha256 (utf8Encode secret) payload)

/-- Functional model of `hmac.compare_digest` on (ASCII) strings: it decides
equality; its constant-time execution is a property of the runtime, not of
the result. -/
def compare_digest (a b : String) : Bool := a == b

/-- `verify_webhook_signature(payload, signature, secret)` from
src/backend/app.py: an empty secret fails closed, otherwise the lowercase
hex HMAC-SHA256 of the payload under the secret is compared with the
supplied signature. -/
def verify_webhook_signature (payload : List Nat) (signature : String) (secret : String) : Bool :=
  if secret = "" then false
  else compare_digest (hmacHexdigest secret payload) signature

/-! ## Receipt id generation -/

/-- Uppercase hexadecimal digit characters. -/
def hexUpperDigits : List Char := "0123456789ABCDEF".data

/-- `hex(n)[2:].upper()` for a natural number: uppercase hex digits, most
significant first, `['0']` for zero. -/
def natHexUpper (n : Nat) : List Char :=
  if n < 16 then [hexUpperDigits.getD n '0']
  else natHexUpper (n / 16) ++ [hexUpperDigits.getD (n % 16) '0']
decreasing_by
  exact Nat.div_lt_self (by omega) (by omega)

/-- `string.ascii_uppercase + string.digits`, the population sampled by
`random.choices`. -/
def receiptAlphabet : List Char := "ABCDEFGHIJKLMNOPQRSTUVWXYZ0123456789".data

/-- The six characters drawn by `random.choices(population, k=6)`; the draw
itself (`r`) is the nondeterministic input. -/
def randomSuffix (r : Fin 6 → Fin 36) : List Char :=
  List.ofFn (fun i => receiptAlphabet.getD (r i).1 'A')

/-- `generate_receipt_id()` from src/backend/app.py, with the current time
`now` (`int(time.time())`) and the random draw `r` passed explicitly:
`f"RCP-{timestamp}-{random_part}"`. -/
def generate_receipt_id (now : Nat) (r : Fin 6 → Fin 36) : String :=
  String.mk ("RCP-".data ++ natHexUpper now ++ '-' :: randomSuffix r)

/-! ## Firestore model and the purchase record -/

/-- The purchase document assembled by the handler.  `createdAt`
(`firestore.SERVER_TIMESTAMP`) is a store-resolved sentinel and not part of
the request-determined data modelled here. -/
structure PurchaseRecord where
  receiptId : String
  assetId : String
  assetName : Json
  price : Json
  downloadLink : Json
  purchaseDate : String
  buyerEmail : Json
  razorpayPaymentId : Json
  razorpayAmount : Json
  razorpayCurrency : Json
  verified : Bool

/-- The Firestore collections the handler touches: `assets` maps a document
id to its dict, `purchases` maps a receipt id to the stored record (a
`document(id).set(data)` prepends, and lookups take the first match). -/
structure Store where
  assets : List (String × List (String × Json))
  purchases : List (String × PurchaseRecord)

/-- The `purchase_data` dict built in the `payment.captured` branch, with
every field copied exactly as in the source (including the `.get` defaults
for `title`, `price`, `downloadLink` and `currency`). -/
def build_purchase_record (receipt_id aid : String) (asset_data ent : List (String × Json))
    (purchase_date : String) : PurchaseRecord :=
  { receiptId := receipt_id
    assetId := aid
    assetName := (asset_data.lookup "title").getD (Json.str "Unknown Asset")
    price := (asset_data.lookup "price").getD (Json.str "N/A")
    downloadLink := (asset_data.lookup "downloadLink").getD (Json.str "")
    purchaseDate := purchase_date
    buyerEmail := optToJson (ent.lookup "email")
    razorpayPaymentId := optToJson (ent.lookup "id")
    razorpayAmount := optToJson (ent.lookup "amount")
    razorpayCurrency := (ent.lookup "currency").getD (Json.str "INR")
    verified := true }

/-- Outcome of one request: HTTP status, JSON body, the (possibly updated)
database handle, and the Firestore document reads and writes performed,
each as (collection, document id). -/
structure HandlerResult where
  status : Nat
  body : Json
  db : Option Store
  reads : List (String × String)
  writes : List (String × String)

/-- The generic `except Exception` clause of the endpoint: HTTP 500 with no
store access (every raising statement precedes any Firestore call). -/
def internalServerError (db : Option Store) : HandlerResult :=
  ⟨500, Json.obj [("error", Json.str "Internal server error")], db, [], []⟩

/-- `razorpay_webhook()` from src/backend/app.py.  Inputs: the configured
secret, the `X-Razorpay-Signature` header, the raw body bytes, the outcome
of `request.get_json()` (`.error` when the body is not valid JSON, in which
case Flask raises and the generic handler answers), the Firestore handle,
and the nondeterministic receipt inputs.  Each `match` arm falling to
`internalServerError` corresponds to a Python exception (`.get` on a
non-dict value, `document()` on a non-string id). -/
def razorpay_webhook (secret : String) (sigHeader : Option String) (payload : List Nat)
    (getJson : Except Unit Json) (db : Option Store) (now : Nat) (rand : Fin 6 → Fin 36)
    (purchase_date : String) : HandlerResult :=
  let signature := sigHeader.getD ""
  if signature = "" then
    ⟨400, Json.obj [("error", Json.str "Signature missing")], db, [], []⟩
  else if verify_webhook_signature payload signature secret then
    match getJson with
    | .error _ => internalServerError db
    | .ok data =>
      match data with
      | .obj flds =>
        if pyEqStr (flds.lookup "event") "payment.captured" then
          match (flds.lookup "payload").getD (Json.obj []) with
          | .obj plFlds =>
            match (plFlds.lookup "payment").getD (Json.obj []) with
            | .obj pmFlds =>
              match (pmFlds.lookup "entity").getD (Json.obj []) with
              | .obj ent =>
                match (ent.lookup "notes").getD (Json.obj []) with
                | .obj notes =>
                  let asset_id := notes.lookup "asset_id"
                  if optTruthy asset_id then
                    match db with
                    | none =>
                      ⟨500, Json.obj [("error", Json.str "Database not available")], db, [], []⟩
                    | some store =>
                      match asset_id with
                      | some (Json.str aid) =>
                        match store.assets.lookup aid with
                        | none =>
                          ⟨404, Json.obj [("error", Json.str "Asset not found")],
                           some store, [("assets", aid)], []⟩
                        | some asset_data =>
                          let receipt_id := generate_receipt_id now rand
                          let purchase_data :=
                            build_purchase_record receipt_id aid asset_data ent purchase_date
                          ⟨200,
                           Json.obj [("success", Json.bool true),
                                     ("receiptId", Json.str receipt_id),
                                     ("message", Json.str "Purchase recorded successfully")],
                           some ⟨store.assets, (receipt_id, purchase_data) :: store.purchases⟩,
                           [("assets", aid)], [("purchases", receipt_id)]⟩
                      | _ => internalServerError db
                  else
                    ⟨400, Json.obj [("error", Json.str "Asset ID missing")], db, [], []⟩
                | _ => internalServerError db
              | _ => internalServerError db
            | _ => internalServerError db
          | _ => internalServerError db
        else ⟨200, Json.obj [("message", Json.str "Event received")], db, [], []⟩
      | _ => internalServerError db
  else
    ⟨403, Json.obj [("error", Json.str "Invalid signature")], db, [], []⟩

/-! ## Basic facts about the signature verifier -/

/-- For a configured (non-empty) secret, verification decides equality of the
supplied signature with the lowercase hex HMAC-SHA256 digest. -/
theorem verify_iff_digest (payload : List Nat) (sig secret : String) (h : secret ≠ "") :
    verify_webhook_signature payload sig secret = true ↔ sig = hmacHexdigest secret payload := by
  simp only [verify_webhook_signature, if_neg h, compare_digest, beq_iff_eq]
  exact eq_comm

/-- Verification accepts the genuine digest of the payload. -/
theorem verify_self (payload : List Nat) (secret : String) (h : secret ≠ "") :
    verify_webhook_signature payload (hmacHexdigest secret payload) secret = true := by
  simp [verify_webhook_signature, h, compare_digest]

theorem length_beBytes (k n : Nat) : (beBytes k n).length = k := by
  simp [beBytes]

theorem length_sha256 (msg : List Nat) : (sha256 msg).length = 32 := by
  simp [sha256, sha256StateBytes, length_beBytes]

theorem hmacSha256_eq_sha256 (key msg : List Nat) :
    hmacSha256 key msg =
      sha256 ((((if 64 < key.length then sha256 key else key) ++
        List.replicate (64 - (if 64 < key.length then sha256 key else key).length) 0).map
          (fun b => b ^^^ 0x5c)) ++
        sha256 ((((if 64 < key.length then sha256 key else key) ++
          List.replicate (64 - (if 64 < key.length then sha256 key else key).length) 0).map
            (fun b => b ^^^ 0x36)) ++ msg)) := rfl

theorem length_hmacSha256 (key msg : List Nat) : (hmacSha256 key msg).length = 32 := by
  rw [hmacSha256_eq_sha256]
  exact length_sha256 _

theorem bytesToHex_data (bs : List Nat) :
    (bytesToHex bs).data = bs.foldr (fun b acc => byteToHexL b ++ acc) [] := rfl

theorem length_bytesToHex_data (bs : List Nat) : (bytesToHex bs).data.length = 2 * bs.length := by
  rw [bytesToHex_data]
  induction bs with
  | nil => rfl
  | cons b bs ih =>
    rw [List.foldr_cons, List.length_append, ih]
    simp [byteToHexL]
    omega

/-- A hex HMAC digest is a 64-character string, in particular non-empty. -/
theorem hmacHexdigest_ne_empty (secret : String) (payload : List Nat) :
    hmacHexdigest secret payload ≠ "" := by
  intro h
  have hd := congrArg (fun s => s.data.length) h
  simp only [hmacHexdigest] at hd
  rw [length_bytesToHex_data, length_hmacSha256] at hd
  simp at hd

/-! ## Characterization of the handler paths -/

theorem webhook_success
    (secret signature : String) (payload : List Nat)
    (flds plFlds pmFlds ent notes asset_data : List (String × Json))
    (aid : String) (store : Store) (now : Nat) (rand : Fin 6 → Fin 36) (pd : String)
    (hsig : signature ≠ "")
    (hver : verify_webhook_signature payload signature secret = true)
    (hev : flds.lookup "event" = some (Json.str "payment.captured"))
    (hpl : flds.lookup "payload" = some (Json.obj plFlds))
    (hpm : plFlds.lookup "payment" = some (Json.obj pmFlds))
    (hent : pmFlds.lookup "entity" = some (Json.obj ent))
    (hnotes : ent.lookup "notes" = some (Json.obj notes))
    (haid : notes.lookup "asset_id" = some (Json.str aid))
    (haidne : aid ≠ "")
    (hasset : store.assets.lookup aid = some asset_data) :
    razorpay_webhook secret (some signature) payload (.ok (Json.obj flds)) (some store) now rand pd =
      ⟨200,
       Json.obj [("success", Json.bool true),
                 ("receiptId", Json.str (generate_receipt_id now rand)),
                 ("message", Json.str "Purchase recorded successfully")],
       some ⟨store.assets,
             (generate_receipt_id now rand,
              build_purchase_record (generate_receipt_id now rand) aid asset_data ent pd) ::
             store.purchases⟩,
       [("assets", aid)], [("purchases", generate_receipt_id now rand)]⟩ := by
  simp [razorpay_webhook, hsig, hver, hev, hpl, hpm, hent, hnotes, haid, haidne, hasset,
        optTruthy, jsonTruthy, pyEqStr]

theorem webhook_missing_asset_id
    (secret signature : String) (payload : List Nat)
    (flds plFlds pmFlds ent notes : List (String × Json))
    (db : Option Store) (now : Nat) (rand : Fin 6 → Fin 36) (pd : String)
    (hsig : signature ≠ "")
    (hver : verify_webhook_signature payload signature secret = true)
    (hev : flds.lookup "event" = some (Json.str "payment.captured"))
    (hpl : flds.lookup "payload" = some (Json.obj plFlds))
    (hpm : plFlds.lookup "payment" = some (Json.obj pmFlds))
    (hent : pmFlds.lookup "entity" = some (Json.obj ent))
    (hnotes : ent.lookup "notes" = some (Json.obj notes))
    (haid : notes.lookup "asset_id" = none ∨ notes.lookup "asset_id" = some (Json.str "")) :
    razorpay_webhook secret (some signature) payload (.ok (Json.obj flds)) db now rand pd =
      ⟨400, Json.obj [("error", Json.str "Asset ID missing")], db, [], []⟩ := by
  rcases haid with haid | haid <;>
    simp [razorpay_webhook, hsig, hver, hev, hpl, hpm, hent, hnotes, haid,
          optTruthy, jsonTruthy, pyEqStr]

theorem webhook_asset_not_found
    (secret signature : String) (payload : List Nat)
    (flds plFlds pmFlds ent notes : List (String × Json))
    (aid : String) (store : Store) (now : Nat) (rand : Fin 6 → Fin 36) (pd : String)
    (hsig : signature ≠ "")
    (hver : verify_webhook_signature payload signature secret = true)
    (hev : flds.lookup "event" = some (Json.str "payment.captured"))
    (hpl : flds.lookup "payload" = some (Json.obj plFlds))
    (hpm : plFlds.lookup "payment" = some (Json.obj pmFlds))
    (hent : pmFlds.lookup "entity" = some (Json.obj ent))
    (hnotes : ent.lookup "notes" = some (Json.obj notes))
    (haid : notes.lookup "asset_id" = some (Json.str aid))
    (haidne : aid ≠ "")
    (hasset : store.assets.lookup aid = none) :
    razorpay_webhook secret (some signature) payload (.ok (Json.obj flds)) (some store) now rand pd =
      ⟨404, Json.obj [("error", Json.str "Asset not found")], some store, [("assets", aid)], []⟩ := by
  simp [razorpay_webhook, hsig, hver, hev, hpl, hpm, hent, hnotes, haid, haidne, hasset,
        optTruthy, jsonTruthy, pyEqStr]

theorem webhook_other_event
    (secret signature : String) (payload : List Nat) (flds : List (String × Json))
    (db : Option Store) (now : Nat) (rand : Fin 6 → Fin 36) (pd : String)
    (hsig : signature ≠ "")
    (hver : verify_webhook_signature payload signature secret = true)
    (hev : pyEqStr (flds.lookup "event") "payment.captured" = false) :
    razorpay_webhook secret (some signature) payload (.ok (Json.obj flds)) db now rand pd =
      ⟨200, Json.obj [("message", Json.str "Event received")], db, [], []⟩ := by
  simp [razorpay_webhook, hsig, hver, hev]

theorem webhook_invalid_json
    (secret signature : String) (payload : List Nat)
    (db : Option Store) (now : Nat) (rand : Fin 6 → Fin 36) (pd : String)
    (hsig : signature ≠ "")
    (hver : verify_webhook_signature payload signature secret = true) :
    razorpay_webhook secret (some signature) payload (.error ()) db now rand pd =
      ⟨500, Json.obj [("error", Json.str "Internal server error")], db, [], []⟩ := by
  simp [razorpay_webhook, hsig, hver, internalServerError]

/-! ## Receipt id format and injectivity -/

theorem getD_mem_of_default_mem {l : List Char} {d : Char} (hd : d ∈ l) (i : Nat) :
    l.getD i d ∈ l := by
  rcases Nat.lt_or_ge i l.length with h | h
  · rw [List.getD_eq_getElem?_getD, List.getElem?_eq_getElem h]
    exact List.getElem_mem h
  · rw [List.getD_eq_getElem?_getD, List.getElem?_eq_none h]
    exact hd

theorem natHexUpper_mem (n : Nat) : ∀ c ∈ natHexUpper n, c ∈ hexUpperDigits := by
  induction n using Nat.strong_induction_on with
  | _ n ih =>
    rw [natHexUpper]
    by_cases h : n < 16
    · simp only [if_pos h, List.mem_singleton]
      rintro c rfl
      exact getD_mem_of_default_mem (by decide) n
    · simp only [if_neg h]
      intro c hc
      rcases List.mem_append.mp hc with hc | hc
      · exact ih (n / 16) (Nat.div_lt_self (by omega) (by omega)) c hc
      · rcases List.mem_singleton.mp hc with rfl
        exact getD_mem_of_default_mem (by decide) (n % 16)

theorem natHexUpper_ne_nil (n : Nat) : natHexUpper n ≠ [] := by
  rw [natHexUpper]
  by_cases h : n < 16 <;> simp [h]

/-- Value of an uppercase-hex digit list (inverse of the rendering). -/
def hexVal (l : List Char) : Nat := l.foldl (fun a c => a * 16 + hexUpperDigits.indexOf c) 0

theorem hexVal_digit (d : Nat) (h : d < 16) :
    hexUpperDigits.indexOf (hexUpperDigits.getD d '0') = d := by
  interval_cases d <;> rfl

theorem hexVal_append_digit (l : List Char) (c : Char) :
    hexVal (l ++ [c]) = hexVal l * 16 + hexUpperDigits.indexOf c := by
  simp [hexVal, List.foldl_append]

theorem hexVal_natHexUpper (n : Nat) : hexVal (natHexUpper n) = n := by
  induction n using Nat.strong_induction_on with
  | _ n ih =>
    rw [natHexUpper]
    by_cases h : n < 16
    · simp only [if_pos h]
      show 0 * 16 + hexUpperDigits.indexOf (hexUpperDigits.getD n '0') = n
      rw [hexVal_digit n h]
      omega
    · simp only [if_neg h]
      rw [hexVal_append_digit, ih (n / 16) (Nat.div_lt_self (by omega) (by omega)),
          hexVal_digit (n % 16) (Nat.mod_lt _ (by omega))]
      omega

theorem natHexUpper_injective (a b : Nat) (h : natHexUpper a = natHexUpper b) : a = b := by
  have := congrArg hexVal h
  rwa [hexVal_natHexUpper, hexVal_natHexUpper] at this

theorem randomSuffix_length (r : Fin 6 → Fin 36) : (randomSuffix r).length = 6 := by
  simp [randomSuffix]

theorem randomSuffix_mem (r : Fin 6 → Fin 36) : ∀ c ∈ randomSuffix r, c ∈ receiptAlphabet := by
  intro c hc
  rcases (List.mem_ofFn _ _).mp hc with ⟨i, rfl⟩
  exact getD_mem_of_default_mem (by decide) _

theorem receiptAlphabet_getD_injective :
    ∀ a b : Fin 36, receiptAlphabet.getD a.1 'A' = receiptAlphabet.getD b.1 'A' → a = b := by
  decide

theorem randomSuffix_injective (r1 r2 : Fin 6 → Fin 36) (h : randomSuffix r1 = randomSuffix r2) :
    r1 = r2 := by
  have hf := List.ofFn_injective h
  funext i
  exact receiptAlphabet_getD_injective _ _ (congrFun hf i)

/-- Splitting at a separator absent from both left parts is unambiguous. -/
theorem append_sep_inj : ∀ l1 l2 s1 s2 : List Char, '-' ∉ l1 → '-' ∉ l2 →
    l1 ++ '-' :: s1 = l2 ++ '-' :: s2 → l1 = l2 ∧ s1 = s2 := by
  intro l1
  induction l1 with
  | nil =>
    intro l2 s1 s2 _ h2 h
    cases l2 with
    | nil => simpa using h
    | cons c t =>
      simp only [List.nil_append, List.cons_append, List.cons.injEq] at h
      exact absurd (by simp [← h.1]) h2
  | cons c t ih =>
    intro l2 s1 s2 h1 h2 h
    cases l2 with
    | nil =>
      simp only [List.nil_append, List.cons_append, List.cons.injEq] at h
      exact absurd (by simp [h.1]) h1
    | cons c2 t2 =>
      simp only [List.cons_append, List.cons.injEq] at h
      obtain ⟨rfl, h'⟩ := h
      obtain ⟨rfl, rfl⟩ := ih t2 s1 s2 (fun hm => h1 (List.mem_cons_of_mem _ hm))
        (fun hm => h2 (List.mem_cons_of_mem _ hm)) h'
      exact ⟨rfl, rfl⟩

theorem generate_receipt_id_injective (now1 now2 : Nat) (r1 r2 : Fin 6 → Fin 36)
    (h : generate_receipt_id now1 r1 = generate_receipt_id now2 r2) :
    now1 = now2 ∧ r1 = r2 := by
  have hd := congrArg String.data h
  simp only [generate_receipt_id] at hd
  have hd' : natHexUpper now1 ++ '-' :: randomSuffix r1 =
      natHexUpper now2 ++ '-' :: randomSuffix r2 := by
    simpa using hd
  have hnod1 : '-' ∉ natHexUpper now1 := fun hm => by
    have := natHexUpper_mem now1 '-' hm
    simp [hexUpperDigits] at this
  have hnod2 : '-' ∉ natHexUpper now2 := fun hm => by
    have := natHexUpper_mem now2 '-' hm
    simp [hexUpperDigits] at this
  obtain ⟨hhex, hsuf⟩ := append_sep_inj _ _ _ _ hnod1 hnod2 hd'
  exact ⟨natHexUpper_injective _ _ hhex, randomSuffix_injective _ _ hsuf⟩

/-! ## HMAC digests occupy a finite space, so distinct secrets can collide -/

/-- Little-endian base-256 value of a byte list. -/
def byteListVal : List Nat → Nat
  | [] => 0
  | b :: bs => b + 256 * byteListVal bs

theorem byteListVal_lt : ∀ l : List Nat, (∀ x ∈ l, x < 256) → byteListVal l < 256 ^ l.length := by
  intro l
  induction l with
  | nil => intro _; simp [byteListVal]
  | cons b bs ih =>
    intro hb
    have h1 : b < 256 := hb b (by simp)
    have h2 : byteListVal bs < 256 ^ bs.length := ih (fun x hx => hb x (by simp [hx]))
    simp only [byteListVal, List.length_cons, pow_succ]
    calc b + 256 * byteListVal bs < 256 * (byteListVal bs + 1) := by omega
    _ ≤ 256 * 256 ^ bs.length := Nat.mul_le_mul_left _ h2
    _ = 256 ^ bs.length * 256 := by ring

theorem byteListVal_inj : ∀ l1 l2 : List Nat, l1.length = l2.length →
    (∀ x ∈ l1, x < 256) → (∀ x ∈ l2, x < 256) →
    byteListVal l1 = byteListVal l2 → l1 = l2 := by
  intro l1
  induction l1 with
  | nil =>
    intro l2 hlen _ _ _
    exact (List.length_eq_zero.mp hlen.symm).symm
  | cons b bs ih =>
    intro l2 hlen hb1 hb2 hv
    cases l2 with
    | nil => simp at hlen
    | cons c cs =>
      simp only [byteListVal] at hv
      have hbc : b < 256 := hb1 b (by simp)
      have hcc : c < 256 := hb2 c (by simp)
      have hhead : b = c ∧ byteListVal bs = byteListVal cs := by omega
      have htail := ih cs (by simpa using hlen) (fun x hx => hb1 x (by simp [hx]))
        (fun x hx => hb2 x (by simp [hx])) hhead.2
      rw [hhead.1, htail]

theorem beBytes_mem_lt (k n : Nat) : ∀ x ∈ beBytes k n, x < 256 := by
  intro x hx
  simp only [beBytes, List.mem_map] at hx
  obtain ⟨i, _, rfl⟩ := hx
  exact Nat.mod_lt _ (by omega)

theorem sha256_mem_lt (msg : List Nat) : ∀ x ∈ sha256 msg, x < 256 := by
  intro x hx
  simp only [sha256, sha256StateBytes, List.mem_append] at hx
  rcases hx with ((((((h | h) | h) | h) | h) | h) | h) | h <;> exact beBytes_mem_lt _ _ _ h

theorem hmacSha256_mem_lt (key msg : List Nat) : ∀ x ∈ hmacSha256 key msg, x < 256 := by
  rw [hmacSha256_eq_sha256]
  exact sha256_mem_lt _

instance : Infinite { s : String // s ≠ "" } :=
  Infinite.of_injective
    (fun n : Nat => ⟨String.mk (List.replicate (n + 1) 'a'), by
      intro hcon
      have := congrArg String.data hcon
      simp at this⟩)
    (by
      intro m n h
      have := congrArg (fun s : { s : String // s ≠ "" } => s.1.data.length) h
      simpa using this)

/-- The empty-payload HMAC digest of a non-empty secret, as a point of the
finite space of 32-byte values. -/
def digestPoint (s : { s : String // s ≠ "" }) : Fin (256 ^ 32) :=
  ⟨byteListVal (hmacSha256 (utf8Encode s.1) []), by
    have hb := byteListVal_lt _ (hmacSha256_mem_lt (utf8Encode s.1) [])
    rwa [length_hmacSha256] at hb⟩

/-- Because HMAC-SHA256 digests form a finite set while secrets do not, two
distinct non-empty secrets share the digest of some payload. -/
theorem hmac_secret_collision :
    ∃ x y : String, x ≠ "" ∧ y ≠ "" ∧ x ≠ y ∧ hmacHexdigest x [] = hmacHexdigest y [] := by
  obtain ⟨x, y, hxy, hf⟩ := Finite.exists_ne_map_eq_of_infinite digestPoint
  refine ⟨x.1, y.1, x.2, y.2, fun h => hxy (Subtype.ext h), ?_⟩
  simp only [digestPoint, Fin.mk.injEq] at hf
  have hlen : (hmacSha256 (utf8Encode x.1) []).length =
      (hmacSha256 (utf8Encode y.1) []).length := by
    rw [length_hmacSha256, length_hmacSha256]
  have hbytes : hmacSha256 (utf8Encode x.1) [] = hmacSha256 (utf8Encode y.1) [] :=
    byteListVal_inj _ _ hlen (hmacSha256_mem_lt _ _) (hmacSha256_mem_lt _ _) hf
  exact congrArg bytesToHex hbytes

/-! ## Claim theorems -/

/-- C1 (counterexample): it is not true that, for every payload and non-empty
secret, verification accepts exactly the digest and rejects under every
distinct secret: HMAC-SHA256 is not injective in the key, so some distinct
non-empty secret reproduces the digest and is accepted. -/
theorem verify_reject_by_distinct_secret_refuted :
    ¬ (∀ (payload : List Nat) (secret : String), secret ≠ "" →
        (∀ sig, verify_webhook_signature payload sig secret = true ↔
          sig = hmacHexdigest secret payload) ∧
        verify_webhook_signature payload (hmacHexdigest secret payload) secret = true ∧
        (∀ secret2 : String, secret2 ≠ secret →
          verify_webhook_signature payload (hmacHexdigest secret payload) secret2 = false)) := by
  intro hclaim
  obtain ⟨x, y, hx, hy, hxy, hdig⟩ := hmac_secret_collision
  have hfalse := (hclaim [] x hx).2.2 y (fun hyx => hxy hyx.symm)
  have htrue : verify_webhook_signature [] (hmacHexdigest x []) y = true := by
    rw [verify_iff_digest _ _ _ hy]
    exact hdig
  rw [htrue] at hfalse
  simp at hfalse

/-- C1 (amended): for every payload and non-empty secret, verification
accepts exactly the lowercase hex HMAC-SHA256 digest; in particular it
accepts the genuine digest, and rejects it under any secret whose digest of
the payload differs (distinctness of the secret alone does not suffice). -/
theorem verify_characterization (payload : List Nat) (sig secret : String) (hS : secret ≠ "") :
    (verify_webhook_signature payload sig secret = true ↔
      sig = hmacHexdigest secret payload) ∧
    verify_webhook_signature payload (hmacHexdigest secret payload) secret = true ∧
    (∀ secret2 : String, hmacHexdigest secret2 payload ≠ hmacHexdigest secret payload →
      verify_webhook_signature payload (hmacHexdigest secret payload) secret2 = false) := by
  refine ⟨verify_iff_digest _ _ _ hS, verify_self _ _ hS, ?_⟩
  intro s2 hne
  by_cases h2 : s2 = ""
  · simp [verify_webhook_signature, h2]
  · simp only [verify_webhook_signature, if_neg h2, compare_digest]
    exact beq_eq_false_iff_ne.mpr hne

/-- C1 witness: the amended characterization at payload `[]`, signature
`"zz"` and secret `"a"`. -/
theorem verify_characterization_witness :
    ("a" : String) ≠ "" ∧
    ((verify_webhook_signature [] "zz" "a" = true ↔ "zz" = hmacHexdigest "a" []) ∧
     verify_webhook_signature [] (hmacHexdigest "a" []) "a" = true ∧
     (∀ secret2 : String, hmacHexdigest secret2 [] ≠ hmacHexdigest "a" [] →
       verify_webhook_signature [] (hmacHexdigest "a" []) secret2 = false)) :=
  ⟨by decide, verify_characterization [] "zz" "a" (by decide)⟩

/-- C4: with an empty (unconfigured) secret, verification returns false for
every payload and signature, before any digest computation or comparison. -/
theorem verify_empty_secret_fails_closed (payload : List Nat) (sig : String) :
    verify_webhook_signature payload sig "" = false := by
  simp [verify_webhook_signature]

/-- C5: every generated receipt id decomposes as
RCP-[0-9A-F]+-[A-Z0-9]\x7b6\x7d, and the middle component is exactly the
uppercase-hexadecimal rendering of the supplied Unix time. -/
theorem generate_receipt_id_format (now : Nat) (r : Fin 6 → Fin 36) :
    ∃ mid suf : List Char,
      (generate_receipt_id now r).data = 'R' :: 'C' :: 'P' :: '-' :: (mid ++ '-' :: suf) ∧
      mid ≠ [] ∧ (∀ c ∈ mid, c ∈ hexUpperDigits) ∧ hexVal mid = now ∧
      suf.length = 6 ∧ (∀ c ∈ suf, c ∈ receiptAlphabet) := by
  refine ⟨natHexUpper now, randomSuffix r, ?_, natHexUpper_ne_nil now, natHexUpper_mem now,
    hexVal_natHexUpper now, randomSuffix_length r, randomSuffix_mem r⟩
  rfl

/-- C2: a verified payment.captured request whose notes carry a non-empty
asset id of an existing item performs exactly one purchase write; the
written record snapshots the item's title, price and download link as read
at call time, has `verified = true`, and the 200 response carries the
receipt id under which the record was stored. -/
theorem webhook_captured_creates_verified_record
    (secret signature : String) (payload : List Nat)
    (flds plFlds pmFlds ent notes asset_data : List (String × Json))
    (aid : String) (titleV priceV linkV : Json) (store : Store) (now : Nat)
    (rand : Fin 6 → Fin 36) (pd : String)
    (hsig : signature ≠ "")
    (hver : verify_webhook_signature payload signature secret = true)
    (hev : flds.lookup "event" = some (Json.str "payment.captured"))
    (hpl : flds.lookup "payload" = some (Json.obj plFlds))
    (hpm : plFlds.lookup "payment" = some (Json.obj pmFlds))
    (hent : pmFlds.lookup "entity" = some (Json.obj ent))
    (hnotes : ent.lookup "notes" = some (Json.obj notes))
    (haid : notes.lookup "asset_id" = some (Json.str aid))
    (haidne : aid ≠ "")
    (hasset : store.assets.lookup aid = some asset_data)
    (htitle : asset_data.lookup "title" = some titleV)
    (hprice : asset_data.lookup "price" = some priceV)
    (hlink : asset_data.lookup "downloadLink" = some linkV) :
    ∃ rid rec,
      razorpay_webhook secret (some signature) payload (.ok (Json.obj flds))
          (some store) now rand pd =
        ⟨200, Json.obj [("success", Json.bool true), ("receiptId", Json.str rid),
                        ("message", Json.str "Purchase recorded successfully")],
         some ⟨store.assets, (rid, rec) :: store.purchases⟩,
         [("assets", aid)], [("purchases", rid)]⟩ ∧
      rec.receiptId = rid ∧ rec.assetId = aid ∧ rec.assetName = titleV ∧
      rec.price = priceV ∧ rec.downloadLink = linkV ∧ rec.verified = true := by
  refine ⟨generate_receipt_id now rand,
    build_purchase_record (generate_receipt_id now rand) aid asset_data ent pd,
    webhook_success secret signature payload flds plFlds pmFlds ent notes asset_data aid store
      now rand pd hsig hver hev hpl hpm hent hnotes haid haidne hasset,
    ?_, ?_, ?_, ?_, ?_, ?_⟩ <;>
  simp [build_purchase_record, htitle, hprice, hlink]

/-- C3 (counterexample): a verified request whose body is not valid JSON is
not answered with a 4xx client error (the decode exception falls into the
generic handler, which answers 500). -/
theorem webhook_malformed_not_client_error :
    ¬ (∀ (secret signature : String) (payload : List Nat) (getJson : Except Unit Json)
        (db : Option Store) (now : Nat) (rand : Fin 6 → Fin 36) (pd : String),
        signature ≠ "" → verify_webhook_signature payload signature secret = true →
        (getJson = Except.error () ∨
          ∃ flds, getJson = Except.ok (Json.obj flds) ∧ flds.lookup "event" = none) →
        400 ≤ (razorpay_webhook secret (some signature) payload getJson db now rand pd).status ∧
        (razorpay_webhook secret (some signature) payload getJson db now rand pd).status < 500) := by
  intro hclaim
  have hne : hmacHexdigest "k" [] ≠ "" := hmacHexdigest_ne_empty "k" []
  have hver : verify_webhook_signature [] (hmacHexdigest "k" []) "k" = true :=
    verify_self [] "k" (by decide)
  have h := hclaim "k" (hmacHexdigest "k" []) [] (Except.error ()) none 0 (fun _ => 0) ""
    hne hver (Or.inl rfl)
  rw [webhook_invalid_json "k" (hmacHexdigest "k" []) [] none 0 (fun _ => 0) "" hne hver] at h
  simp at h

/-- C3 (amended): on a verified request the handler answers 500 (Internal
server error) when the body is not valid JSON, and 200 (Event received)
when the body is a JSON object without an `event` field; neither path
touches the store. -/
theorem webhook_malformed_actual_behavior
    (secret signature : String) (payload : List Nat) (flds : List (String × Json))
    (db : Option Store) (now : Nat) (rand : Fin 6 → Fin 36) (pd : String)
    (hsig : signature ≠ "")
    (hver : verify_webhook_signature payload signature secret = true) :
    razorpay_webhook secret (some signature) payload (.error ()) db now rand pd =
      ⟨500, Json.obj [("error", Json.str "Internal server error")], db, [], []⟩ ∧
    (flds.lookup "event" = none →
      razorpay_webhook secret (some signature) payload (.ok (Json.obj flds)) db now rand pd =
        ⟨200, Json.obj [("message", Json.str "Event received")], db, [], []⟩) := by
  refine ⟨webhook_invalid_json secret signature payload db now rand pd hsig hver, ?_⟩
  intro hev
  exact webhook_other_event secret signature payload flds db now rand pd hsig hver
    (by rw [hev]; rfl)

/-- C3 witness: the amended behavior at a concrete verified request. -/
theorem webhook_malformed_actual_behavior_witness :
    razorpay_webhook "k" (some (hmacHexdigest "k" [])) [] (.error ()) none 0 (fun _ => 0) "" =
      ⟨500, Json.obj [("error", Json.str "Internal server error")], none, [], []⟩ ∧
    (([] : List (String × Json)).lookup "event" = none →
      razorpay_webhook "k" (some (hmacHexdigest "k" [])) [] (.ok (Json.obj [])) none 0
          (fun _ => 0) "" =
        ⟨200, Json.obj [("message", Json.str "Event received")], none, [], []⟩) :=
  webhook_malformed_actual_behavior "k" (hmacHexdigest "k" []) [] [] none 0 (fun _ => 0) ""
    (hmacHexdigest_ne_empty "k" []) (verify_self [] "k" (by decide))

/-- C7: a verified request whose parsed event is anything for which
`event == "payment.captured"` is false is acknowledged with 200 (Event
received), the store handle is returned unchanged, and no document read or
write is performed. -/
theorem webhook_non_captured_event_no_store_access
    (secret signature : String) (payload : List Nat) (flds : List (String × Json))
    (db : Option Store) (now : Nat) (rand : Fin 6 → Fin 36) (pd : String)
    (hsig : signature ≠ "")
    (hver : verify_webhook_signature payload signature secret = true)
    (hev : pyEqStr (flds.lookup "event") "payment.captured" = false) :
    razorpay_webhook secret (some signature) payload (.ok (Json.obj flds)) db now rand pd =
      ⟨200, Json.obj [("message", Json.str "Event received")], db, [], []⟩ :=
  webhook_other_event secret signature payload flds db now rand pd hsig hver hev

/-- C7 witness: a concrete verified `payment.failed` event is acknowledged
with no store access. -/
theorem webhook_non_captured_event_no_store_access_witness :
    razorpay_webhook "k" (some (hmacHexdigest "k" [])) []
        (.ok (Json.obj [("event", Json.str "payment.failed")])) none 0 (fun _ => 0) "" =
      ⟨200, Json.obj [("message", Json.str "Event received")], none, [], []⟩ :=
  webhook_non_captured_event_no_store_access "k" (hmacHexdigest "k" []) []
    [("event", Json.str "payment.failed")] none 0 (fun _ => 0) ""
    (hmacHexdigest_ne_empty "k" []) (verify_self [] "k" (by decide)) rfl

/-- C8: on the two client-error outcomes of a verified payment.captured
request no purchase is written and the store is unchanged: 400 (Asset ID
missing) when notes.asset_id is absent or the empty string, 404 (Asset not
found) when no item document exists for the asset id. -/
theorem webhook_client_error_paths_no_write
    (secret signature : String) (payload : List Nat)
    (flds plFlds pmFlds ent notes : List (String × Json))
    (aid : String) (db : Option Store) (store : Store) (now : Nat)
    (rand : Fin 6 → Fin 36) (pd : String)
    (hsig : signature ≠ "")
    (hver : verify_webhook_signature payload signature secret = true)
    (hev : flds.lookup "event" = some (Json.str "payment.captured"))
    (hpl : flds.lookup "payload" = some (Json.obj plFlds))
    (hpm : plFlds.lookup "payment" = some (Json.obj pmFlds))
    (hent : pmFlds.lookup "entity" = some (Json.obj ent))
    (hnotes : ent.lookup "notes" = some (Json.obj notes)) :
    ((notes.lookup "asset_id" = none ∨ notes.lookup "asset_id" = some (Json.str "")) →
      razorpay_webhook secret (some signature) payload (.ok (Json.obj flds)) db now rand pd =
        ⟨400, Json.obj [("error", Json.str "Asset ID missing")], db, [], []⟩) ∧
    (notes.lookup "asset_id" = some (Json.str aid) → aid ≠ "" →
      store.assets.lookup aid = none →
      razorpay_webhook secret (some signature) payload (.ok (Json.obj flds))
          (some store) now rand pd =
        ⟨404, Json.obj [("error", Json.str "Asset not found")],
         some store, [("assets", aid)], []⟩) := by
  constructor
  · intro haid
    exact webhook_missing_asset_id secret signature payload flds plFlds pmFlds ent notes db
      now rand pd hsig hver hev hpl hpm hent hnotes haid
  · intro haid haidne hasset
    exact webhook_asset_not_found secret signature payload flds plFlds pmFlds ent notes aid
      store now rand pd hsig hver hev hpl hpm hent hnotes haid haidne hasset

/-- C6: re-processing the identical verified payment.captured body with a
fresh receipt draw (different time or random choices) generates a distinct
receipt id and appends a second purchase record; the first record is still
retrievable, and neither the read nor the written key involves the gateway
payment id (they are `aid` and the generated id, for every `ent`). -/
theorem webhook_redelivery_creates_second_record
    (secret signature : String) (payload : List Nat)
    (flds plFlds pmFlds ent notes asset_data : List (String × Json))
    (aid : String) (store : Store) (now1 now2 : Nat) (rand1 rand2 : Fin 6 → Fin 36)
    (pd1 pd2 : String)
    (hfresh : (now1, rand1) ≠ (now2, rand2))
    (hsig : signature ≠ "")
    (hver : verify_webhook_signature payload signature secret = true)
    (hev : flds.lookup "event" = some (Json.str "payment.captured"))
    (hpl : flds.lookup "payload" = some (Json.obj plFlds))
    (hpm : plFlds.lookup "payment" = some (Json.obj pmFlds))
    (hent : pmFlds.lookup "entity" = some (Json.obj ent))
    (hnotes : ent.lookup "notes" = some (Json.obj notes))
    (haid : notes.lookup "asset_id" = some (Json.str aid))
    (haidne : aid ≠ "")
    (hasset : store.assets.lookup aid = some asset_data) :
    generate_receipt_id now1 rand1 ≠ generate_receipt_id now2 rand2 ∧
    razorpay_webhook secret (some signature) payload (.ok (Json.obj flds))
        ((razorpay_webhook secret (some signature) payload (.ok (Json.obj flds))
            (some store) now1 rand1 pd1).db) now2 rand2 pd2 =
      ⟨200, Json.obj [("success", Json.bool true),
                      ("receiptId", Json.str (generate_receipt_id now2 rand2)),
                      ("message", Json.str "Purchase recorded successfully")],
       some ⟨store.assets,
             (generate_receipt_id now2 rand2,
              build_purchase_record (generate_receipt_id now2 rand2) aid asset_data ent pd2) ::
             (generate_receipt_id now1 rand1,
              build_purchase_record (generate_receipt_id now1 rand1) aid asset_data ent pd1) ::
             store.purchases⟩,
       [("assets", aid)], [("purchases", generate_receipt_id now2 rand2)]⟩ ∧
    ((generate_receipt_id now2 rand2,
        build_purchase_record (generate_receipt_id now2 rand2) aid asset_data ent pd2) ::
      (generate_receipt_id now1 rand1,
        build_purchase_record (generate_receipt_id now1 rand1) aid asset_data ent pd1) ::
      store.purchases).lookup (generate_receipt_id now1 rand1) =
      some (build_purchase_record (generate_receipt_id now1 rand1) aid asset_data ent pd1) := by
  have hne : generate_receipt_id now1 rand1 ≠ generate_receipt_id now2 rand2 := by
    intro h
    obtain ⟨h1, h2⟩ := generate_receipt_id_injective now1 now2 rand1 rand2 h
    exact hfresh (by rw [h1, h2])
  refine ⟨hne, ?_, ?_⟩
  · rw [webhook_success secret signature payload flds plFlds pmFlds ent notes asset_data aid
        store now1 rand1 pd1 hsig hver hev hpl hpm hent hnotes haid haidne hasset]
    exact webhook_success secret signature payload flds plFlds pmFlds ent notes asset_data aid
      ⟨store.assets, (generate_receipt_id now1 rand1,
        build_purchase_record (generate_receipt_id now1 rand1) aid asset_data ent pd1) ::
        store.purchases⟩ now2 rand2 pd2 hsig hver hev hpl hpm hent hnotes haid haidne hasset
  · simp [List.lookup, beq_eq_false_iff_ne.mpr hne]

/-- C10: when the item document exists but lacks title, price and
downloadLink, record creation still succeeds with the source defaults
(Unknown Asset / N/A / empty link) and the handler answers 200. -/
theorem webhook_partial_item_uses_defaults
    (secret signature : String) (payload : List Nat)
    (flds plFlds pmFlds ent notes asset_data : List (String × Json))
    (aid : String) (store : Store) (now : Nat) (rand : Fin 6 → Fin 36) (pd : String)
    (hsig : signature ≠ "")
    (hver : verify_webhook_signature payload signature secret = true)
    (hev : flds.lookup "event" = some (Json.str "payment.captured"))
    (hpl : flds.lookup "payload" = some (Json.obj plFlds))
    (hpm : plFlds.lookup "payment" = some (Json.obj pmFlds))
    (hent : pmFlds.lookup "entity" = some (Json.obj ent))
    (hnotes : ent.lookup "notes" = some (Json.obj notes))
    (haid : notes.lookup "asset_id" = some (Json.str aid))
    (haidne : aid ≠ "")
    (hasset : store.assets.lookup aid = some asset_data)
    (htitle : asset_data.lookup "title" = none)
    (hprice : asset_data.lookup "price" = none)
    (hlink : asset_data.lookup "downloadLink" = none) :
    ∃ rid rec,
      razorpay_webhook secret (some signature) payload (.ok (Json.obj flds))
          (some store) now rand pd =
        ⟨200, Json.obj [("success", Json.bool true), ("receiptId", Json.str rid),
                        ("message", Json.str "Purchase recorded successfully")],
         some ⟨store.assets, (rid, rec) :: store.purchases⟩,
         [("assets", aid)], [("purchases", rid)]⟩ ∧
      rec.assetName = Json.str "Unknown Asset" ∧ rec.price = Json.str "N/A" ∧
      rec.downloadLink = Json.str "" ∧ rec.verified = true := by
  refine ⟨generate_receipt_id now rand,
    build_purchase_record (generate_receipt_id now rand) aid asset_data ent pd,
    webhook_success secret signature payload flds plFlds pmFlds ent notes asset_data aid store
      now rand pd hsig hver hev hpl hpm hent hnotes haid haidne hasset,
    ?_, ?_, ?_, ?_⟩ <;>
  simp [build_purchase_record, htitle, hprice, hlink]

/-! ## Concrete request data for the witnesses -/

/-- Payment entity dict of the sample webhook body, parametrized by notes. -/
def entOf (notes : List (String × Json)) : List (String × Json) :=
  [("id", Json.str "pay_1"), ("amount", Json.num 50000), ("currency", Json.str "INR"),
   ("email", Json.str "a@b.com"), ("notes", Json.obj notes)]

/-- The `payment` wrapper of the sample body. -/
def pmOf (notes : List (String × Json)) : List (String × Json) :=
  [("entity", Json.obj (entOf notes))]

/-- The `payload` wrapper of the sample body. -/
def plOf (notes : List (String × Json)) : List (String × Json) :=
  [("payment", Json.obj (pmOf notes))]

/-- The full sample payment.captured body. -/
def fldsOf (notes : List (String × Json)) : List (String × Json) :=
  [("event", Json.str "payment.captured"), ("payload", Json.obj (plOf notes))]

/-- Notes naming the sample asset. -/
def sampleNotes : List (String × Json) := [("asset_id", Json.str "asset_42")]

/-- A complete item document. -/
def sampleAsset : List (String × Json) :=
  [("title", Json.str "LUT Pack"), ("price", Json.str "499"), ("downloadLink", Json.str "link")]

/-- A store holding the sample asset and no purchases. -/
def sampleStore : Store := ⟨[("asset_42", sampleAsset)], []⟩

/-- A store whose only item document is empty (no title, price or link). -/
def bareStore : Store := ⟨[("asset_42", [])], []⟩

/-- C2 witness: the characterization at a concrete verified request against
`sampleStore`. -/
theorem webhook_captured_creates_verified_record_witness :
    ∃ rid rec,
      razorpay_webhook "k" (some (hmacHexdigest "k" [])) [] (.ok (Json.obj (fldsOf sampleNotes)))
          (some sampleStore) 0 (fun _ => 0) "" =
        ⟨200, Json.obj [("success", Json.bool true), ("receiptId", Json.str rid),
                        ("message", Json.str "Purchase recorded successfully")],
         some ⟨sampleStore.assets, (rid, rec) :: sampleStore.purchases⟩,
         [("assets", "asset_42")], [("purchases", rid)]⟩ ∧
      rec.receiptId = rid ∧ rec.assetId = "asset_42" ∧ rec.assetName = Json.str "LUT Pack" ∧
      rec.price = Json.str "499" ∧ rec.downloadLink = Json.str "link" ∧ rec.verified = true :=
  webhook_captured_creates_verified_record "k" (hmacHexdigest "k" []) [] (fldsOf sampleNotes)
    (plOf sampleNotes) (pmOf sampleNotes) (entOf sampleNotes) sampleNotes sampleAsset
    "asset_42" (Json.str "LUT Pack") (Json.str "499") (Json.str "link") sampleStore 0
    (fun _ => 0) "" (hmacHexdigest_ne_empty "k" []) (verify_self [] "k" (by decide))
    rfl rfl rfl rfl rfl rfl (by decide) rfl rfl rfl rfl

/-- C6 witness: re-delivery of the sample body with a later timestamp. -/
theorem webhook_redelivery_creates_second_record_witness :
    generate_receipt_id 0 (fun _ => 0) ≠ generate_receipt_id 1 (fun _ => 0) ∧
    razorpay_webhook "k" (some (hmacHexdigest "k" [])) [] (.ok (Json.obj (fldsOf sampleNotes)))
        ((razorpay_webhook "k" (some (hmacHexdigest "k" [])) []
            (.ok (Json.obj (fldsOf sampleNotes))) (some sampleStore) 0 (fun _ => 0) "d1").db)
        1 (fun _ => 0) "d2" =
      ⟨200, Json.obj [("success", Json.bool true),
                      ("receiptId", Json.str (generate_receipt_id 1 (fun _ => 0))),
                      ("message", Json.str "Purchase recorded successfully")],
       some ⟨sampleStore.assets,
             (generate_receipt_id 1 (fun _ => 0),
              build_purchase_record (generate_receipt_id 1 (fun _ => 0)) "asset_42"
                sampleAsset (entOf sampleNotes) "d2") ::
             (generate_receipt_id 0 (fun _ => 0),
              build_purchase_record (generate_receipt_id 0 (fun _ => 0)) "asset_42"
                sampleAsset (entOf sampleNotes) "d1") ::
             sampleStore.purchases⟩,
       [("assets", "asset_42")], [("purchases", generate_receipt_id 1 (fun _ => 0))]⟩ ∧
    ((generate_receipt_id 1 (fun _ => 0),
        build_purchase_record (generate_receipt_id 1 (fun _ => 0)) "asset_42" sampleAsset
          (entOf sampleNotes) "d2") ::
      (generate_receipt_id 0 (fun _ => 0),
        build_purchase_record (generate_receipt_id 0 (fun _ => 0)) "asset_42" sampleAsset
          (entOf sampleNotes) "d1") ::
      sampleStore.purchases).lookup (generate_receipt_id 0 (fun _ => 0)) =
      some (build_purchase_record (generate_receipt_id 0 (fun _ => 0)) "asset_42" sampleAsset
        (entOf sampleNotes) "d1") :=
  webhook_redelivery_creates_second_record "k" (hmacHexdigest "k" []) [] (fldsOf sampleNotes)
    (plOf sampleNotes) (pmOf sampleNotes) (entOf sampleNotes) sampleNotes sampleAsset
    "asset_42" sampleStore 0 1 (fun _ => 0) (fun _ => 0) "d1" "d2" (by simp)
    (hmacHexdigest_ne_empty "k" []) (verify_self [] "k" (by decide))
    rfl rfl rfl rfl rfl rfl (by decide) rfl

/-- C8 witness: concrete 400 (notes without asset id) and 404 (unknown
asset id) outcomes with the store untouched. -/
theorem webhook_client_error_paths_no_write_witness :
    razorpay_webhook "k" (some (hmacHexdigest "k" [])) [] (.ok (Json.obj (fldsOf [])))
        (some sampleStore) 0 (fun _ => 0) "" =
      ⟨400, Json.obj [("error", Json.str "Asset ID missing")], some sampleStore, [], []⟩ ∧
    razorpay_webhook "k" (some (hmacHexdigest "k" [])) []
        (.ok (Json.obj (fldsOf [("asset_id", Json.str "ghost")]))) (some sampleStore) 0
        (fun _ => 0) "" =
      ⟨404, Json.obj [("error", Json.str "Asset not found")],
       some sampleStore, [("assets", "ghost")], []⟩ :=
  ⟨(webhook_client_error_paths_no_write "k" (hmacHexdigest "k" []) [] (fldsOf []) (plOf [])
      (pmOf []) (entOf []) [] "x" (some sampleStore) sampleStore 0 (fun _ => 0) ""
      (hmacHexdigest_ne_empty "k" []) (verify_self [] "k" (by decide))
      rfl rfl rfl rfl rfl).1 (Or.inl rfl),
   (webhook_client_error_paths_no_write "k" (hmacHexdigest "k" []) []
      (fldsOf [("asset_id", Json.str "ghost")]) (plOf [("asset_id", Json.str "ghost")])
      (pmOf [("asset_id", Json.str "ghost")]) (entOf [("asset_id", Json.str "ghost")])
      [("asset_id", Json.str "ghost")] "ghost" (some sampleStore) sampleStore 0 (fun _ => 0) ""
      (hmacHexdigest_ne_empty "k" []) (verify_self [] "k" (by decide))
      rfl rfl rfl rfl rfl).2 rfl (by decide) rfl⟩

/-- C10 witness: the sample body against the store whose item document is
empty; the record carries the three defaults. -/
theorem webhook_partial_item_uses_defaults_witness :
    ∃ rid rec,
      razorpay_webhook "k" (some (hmacHexdigest "k" [])) [] (.ok (Json.obj (fldsOf sampleNotes)))
          (some bareStore) 0 (fun _ => 0) "" =
        ⟨200, Json.obj [("success", Json.bool true), ("receiptId", Json.str rid),
                        ("message", Json.str "Purchase recorded successfully")],
         some ⟨bareStore.assets, (rid, rec) :: bareStore.purchases⟩,
         [("assets", "asset_42")], [("purchases", rid)]⟩ ∧
      rec.assetName = Json.str "Unknown Asset" ∧ rec.price = Json.str "N/A" ∧
      rec.downloadLink = Json.str "" ∧ rec.verified = true :=
  webhook_partial_item_uses_defaults "k" (hmacHexdigest "k" []) [] (fldsOf sampleNotes)
    (plOf sampleNotes) (pmOf sampleNotes) (entOf sampleNotes) sampleNotes [] "asset_42"
    bareStore 0 (fun _ => 0) "" (hmacHexdigest_ne_empty "k" []) (verify_self [] "k" (by decide))
    rfl rfl rfl rfl rfl rfl (by decide) rfl rfl rfl rfl
